import Mathlib

/-!
Shallow embedding of the fantasy-playoff-odds crawler, covering
`sleeper_api.py` (remote client and bracket extraction) and `collector.py`
(crawl state persistence, frontier walker, league processor).

Modelling conventions:
* JSON objects become structures whose optional keys are `Option` fields;
  a key that is absent and a key whose value is `null` both map to `none`
  (Python code treats them identically via `dict.get`).
* Python ints are `Int` (unbounded, as in Python).
* The float comparison `playoff_teams / total_rosters > 0.67` is embedded
  as the exact integer comparison `100 * playoff_teams > 67 * total_rosters`
  (for a positive denominator); the IEEE double comparison performed by the
  source agrees with the exact rational one for all operand magnitudes the
  program can meet (any magnitude below 2 ^ 50).
* Remote I/O is modelled by passing the remote's response explicitly; the
  database writes performed by the league processor are returned as lists of
  records instead of being executed.
-/

namespace FantasyPlayoffOdds

/-- An HTTP response as seen by the client: a status code together with the
decoded JSON body of type `α`. -/
structure HttpResponse (α : Type) where
  status : Nat
  body : α
  deriving DecidableEq

/-- Outcome of a client call in `sleeper_api.py`: a returned value, a raised
`requests.HTTPError` (carrying the response status), or the uncaught
`RuntimeError` raised on HTTP 429 (fatal, aborts the run). -/
inductive ApiOutcome (α : Type) where
  | ok : α → ApiOutcome α
  | httpError : Nat → ApiOutcome α
  | fatal : String → ApiOutcome α
  deriving DecidableEq

namespace SleeperAPI

/-- `SleeperAPI._get`: raises `RuntimeError` when the status is 429,
raises `HTTPError` (via `raise_for_status`) on any other 4xx/5xx status,
and otherwise returns the JSON body. -/
def get (endpoint : String) (resp : HttpResponse α) : ApiOutcome α :=
  if resp.status = 429 then
    .fatal ("Rate limited (429) on " ++ endpoint ++ ". Slow down.")
  else if 400 ≤ resp.status ∧ resp.status ≤ 599 then
    .httpError resp.status
  else
    .ok resp.body

/-- `SleeperAPI.get_user`: single-entity lookup; a 404 becomes `none`,
any other `HTTPError` is re-raised. -/
def get_user (username : String) (resp : HttpResponse α) : ApiOutcome (Option α) :=
  match get ("/user/" ++ username) resp with
  | .ok u => .ok (some u)
  | .httpError s => if s = 404 then .ok none else .httpError s
  | .fatal m => .fatal m

/-- `SleeperAPI.get_user_leagues`: list lookup; any `HTTPError` degrades to
the empty list. -/
def get_user_leagues (user_id : String) (season : Int)
    (resp : HttpResponse (List α)) : ApiOutcome (List α) :=
  match get ("/user/" ++ user_id ++ "/leagues/nfl/" ++ toString season) resp with
  | .ok xs => .ok xs
  | .httpError _ => .ok []
  | .fatal m => .fatal m

/-- `SleeperAPI.get_league`: single-entity lookup; a 404 becomes `none`,
any other `HTTPError` is re-raised. -/
def get_league (league_id : String) (resp : HttpResponse α) : ApiOutcome (Option α) :=
  match get ("/league/" ++ league_id) resp with
  | .ok lg => .ok (some lg)
  | .httpError s => if s = 404 then .ok none else .httpError s
  | .fatal m => .fatal m

/-- `SleeperAPI.get_league_users`: list lookup; any `HTTPError` degrades to
the empty list. -/
def get_league_users (league_id : String)
    (resp : HttpResponse (List α)) : ApiOutcome (List α) :=
  match get ("/league/" ++ league_id ++ "/users") resp with
  | .ok xs => .ok xs
  | .httpError _ => .ok []
  | .fatal m => .fatal m

/-- `SleeperAPI.get_league_rosters`: list lookup; any `HTTPError` degrades to
the empty list. -/
def get_league_rosters (league_id : String)
    (resp : HttpResponse (List α)) : ApiOutcome (List α) :=
  match get ("/league/" ++ league_id ++ "/rosters") resp with
  | .ok xs => .ok xs
  | .httpError _ => .ok []
  | .fatal m => .fatal m

/-- `SleeperAPI.get_winners_bracket`: list lookup; any `HTTPError` degrades to
the empty list. -/
def get_winners_bracket (league_id : String)
    (resp : HttpResponse (List α)) : ApiOutcome (List α) :=
  match get ("/league/" ++ league_id ++ "/winners_bracket") resp with
  | .ok xs => .ok xs
  | .httpError _ => .ok []
  | .fatal m => .fatal m

end SleeperAPI

/-- One matchup object of the winners bracket; `t1` and `t2` are the roster
ids of the two teams (a missing key and an explicit `null` both map to
`none`, matching the source's `"t1" in matchup and matchup["t1"] is not None`
test). -/
structure Matchup where
  t1 : Option Int
  t2 : Option Int
  deriving DecidableEq

/-- `extract_playoff_roster_ids`: collect every roster id appearing in either
slot of any bracket matchup.  A `None` bracket and an empty bracket both
yield the empty set (`if not bracket`). -/
def extract_playoff_roster_ids (bracket : List Matchup) : Finset Int :=
  bracket.foldl (fun roster_ids matchup =>
    let roster_ids := match matchup.t1 with
      | some r => insert r roster_ids
      | none => roster_ids
    match matchup.t2 with
    | some r => insert r roster_ids
    | none => roster_ids) ∅

/-- The `settings` sub-object of a league detail. -/
structure LeagueSettings where
  playoff_teams : Option Int
  deriving DecidableEq

/-- A league detail object as returned by `get_league`. -/
structure League where
  status : Option String
  settings : Option LeagueSettings
  total_rosters : Option Int
  name : Option String
  deriving DecidableEq

/-- A roster object as returned by `get_league_rosters`. -/
structure Roster where
  roster_id : Option Int
  owner_id : Option String
  players : Option (List String)
  deriving DecidableEq

/-- The remote data visible to `process_league` for one league id: the
league detail (`none` for absent — Python's `if not league` also treats an
empty object as absent), the roster list and the winners bracket. -/
structure Remote where
  league_detail : Option League
  rosters : List Roster
  bracket : List Matchup
  deriving DecidableEq

/-- A row written by `insert_league`. -/
structure LeagueRecord where
  league_id : String
  season : String
  name : Option String
  total_rosters : Option Int
  playoff_teams : Int
  status : Option String
  deriving DecidableEq

/-- A row written by `insert_roster`. -/
structure RosterRecord where
  league_id : String
  roster_id : Int
  owner_id : Option String
  made_playoffs : Option Bool
  deriving DecidableEq

/-- A call to `insert_roster_players` (one roster's player-id list). -/
structure RosterPlayersRow where
  league_id : String
  roster_id : Int
  players : List String
  deriving DecidableEq

/-- Result of `process_league`: the returned success flag, the database rows
it wrote, and the number of remote API calls it issued. -/
structure ProcessResult where
  success : Bool
  leagues : List LeagueRecord
  rosters : List RosterRecord
  roster_players : List RosterPlayersRow
  apiCalls : Nat
  deriving DecidableEq

/-- The per-roster loop of `process_league` (lines 199-211): skip rosters
without a `roster_id`; `made_playoffs` is a membership test when the
qualifier set is non-empty and `None` otherwise; player lists default to
`[]` (`roster.get("players") or []`). -/
def storeRosters (league_id : String) (playoff_roster_ids : Finset Int) :
    List Roster → List RosterRecord × List RosterPlayersRow
  | [] => ([], [])
  | roster :: rest =>
    match roster.roster_id with
    | none => storeRosters league_id playoff_roster_ids rest
    | some roster_id =>
      let made_playoffs : Option Bool :=
        if playoff_roster_ids = ∅ then none
        else some (decide (roster_id ∈ playoff_roster_ids))
      let tail := storeRosters league_id playoff_roster_ids rest
      (⟨league_id, roster_id, roster.owner_id, made_playoffs⟩ :: tail.1,
       ⟨league_id, roster_id, roster.players.getD []⟩ :: tail.2)

/-- The body of `process_league` once the league detail is present. -/
def processLeagueBody (remote : Remote) (league : League)
    (league_id : String) (season : Int) : ProcessResult :=
  if league.status = some "pre_draft" ∨ league.status = some "drafting" then
    { success := false, leagues := [], rosters := [], roster_players := [], apiCalls := 1 }
  else
    let playoff_teams := (league.settings.bind LeagueSettings.playoff_teams).getD 6
    let total_rosters := league.total_rosters.getD 12
    if 0 < total_rosters ∧ 100 * playoff_teams > 67 * total_rosters then
      { success := false, leagues := [], rosters := [], roster_players := [], apiCalls := 1 }
    else
      let league_row : LeagueRecord :=
        { league_id := league_id, season := toString season, name := league.name,
          total_rosters := league.total_rosters, playoff_teams := playoff_teams,
          status := league.status }
      if remote.rosters = [] then
        { success := false, leagues := [league_row], rosters := [],
          roster_players := [], apiCalls := 2 }
      else
        let playoff_roster_ids := extract_playoff_roster_ids remote.bracket
        let stored := storeRosters league_id playoff_roster_ids remote.rosters
        { success := true, leagues := [league_row], rosters := stored.1,
          roster_players := stored.2, apiCalls := 3 }

/-- `process_league` (collector.py lines 155-213): fetch the league detail,
gate on status, gate on the playoff fraction (`total_rosters > 0 and
playoff_teams / total_rosters > 0.67`, embedded exactly over the rationals),
insert the league row, fetch rosters (empty ⇒ failure), fetch the bracket
and store the roster rows. -/
def process_league (remote : Remote) (league_id : String) (season : Int) :
    ProcessResult :=
  match remote.league_detail with
  | none =>
    { success := false, leagues := [], rosters := [], roster_players := [], apiCalls := 1 }
  | some league => processLeagueBody remote league league_id season

/-- The JSON object written to `crawl_state.json`. -/
structure CrawlState where
  seen_user_ids : List String
  user_queue : List String
  deriving DecidableEq

/-- `load_crawl_state`: read the saved state, or return the empty state when
the file is absent. -/
def load_crawl_state (file : Option CrawlState) : CrawlState :=
  match file with
  | some state => state
  | none => { seen_user_ids := [], user_queue := [] }

/-- `save_crawl_state`: serialise the visited set (as `list(set)`, whose
order is unspecified by Python — modelled here as the sorted enumeration)
together with the queue. -/
def save_crawl_state (seen_user_ids : Finset String) (user_q : List String) :
    CrawlState :=
  { seen_user_ids := seen_user_ids.sort (· ≤ ·), user_queue := user_q }

/-- A user object; `user_id` is `u.get("user_id")`. -/
structure UserDoc where
  user_id : Option String
  deriving DecidableEq

/-- A league stub as returned by `get_user_leagues`; `league_id` is already
the string `str(lg.get("league_id", ""))`, with `""` standing for an absent
id. -/
structure LeagueStub where
  league_id : String
  sport : Option String
  deriving DecidableEq

/-- The remote service and database as a deterministic oracle consulted by
the walker: user resolution, per-user league lists, per-league member lists,
the `league_exists` database check, and the per-league data consumed by
`process_league`. -/
structure CrawlApi where
  get_user : String → Option UserDoc
  get_user_leagues : String → Int → List LeagueStub
  get_league_users : String → List UserDoc
  league_exists : String → Bool
  league_remote : String → Remote

/-- The parameters of `crawl_and_store_leagues`, plus the random stream
(`rng i` stands for the value drawn by `random.randint` at iteration `i`;
it is reduced into `randint`'s range by the walker). -/
structure CrawlParams where
  api : CrawlApi
  season : Int
  target_leagues : Nat
  max_users_to_visit : Nat
  max_leagues_per_user : Nat
  shuffle_queue : Bool
  skip_existing : Bool
  rng : Nat → Nat

/-- State threaded through the walker loop.  `fetches` counts remote calls
issued, `saves` records every checkpoint written (in order), and `iter`
indexes the random stream. -/
structure WalkerState where
  seen_user_ids : Finset String
  user_q : List String
  seen_leagues : Finset String
  leagues_processed : Nat
  fetches : Nat
  saves : List (Finset String × List String)
  iter : Nat
  deriving DecidableEq

/-- Enqueue the user ids of a league's members, skipping falsy ids and ids
already in the visited set (`if u_id and u_id not in seen_user_ids`). -/
def enqueueUsers (users : List UserDoc) (seen_user_ids : Finset String) :
    List String :=
  users.filterMap (fun u =>
    match u.user_id with
    | some u_id => if u_id ≠ "" ∧ u_id ∉ seen_user_ids then some u_id else none
    | none => none)

/-- Mutable data of the inner `for lg in leagues` loop. -/
structure InnerAcc where
  seen_leagues : Finset String
  user_q : List String
  leagues_processed : Nat
  leagues_from_this_user : Nat
  fetches : Nat

/-- The inner `for lg in leagues` loop (collector.py lines 106-142): skip
blank/duplicate league ids and non-NFL leagues; for existing leagues only
enqueue members; otherwise run `process_league`, and on success count it and
enqueue members; stop early when the global target or the per-user cap is
reached. -/
def innerLoop (p : CrawlParams) (seen_user_ids : Finset String) :
    List LeagueStub → InnerAcc → InnerAcc
  | [], acc => acc
  | lg :: rest, acc =>
    if lg.league_id = "" ∨ lg.league_id ∈ acc.seen_leagues then
      innerLoop p seen_user_ids rest acc
    else if lg.sport ≠ some "nfl" then
      innerLoop p seen_user_ids rest acc
    else
      let acc1 : InnerAcc := { acc with seen_leagues := insert lg.league_id acc.seen_leagues }
      if p.skip_existing && p.api.league_exists lg.league_id then
        let league_users := p.api.get_league_users lg.league_id
        innerLoop p seen_user_ids rest
          { acc1 with
            fetches := acc1.fetches + 1,
            user_q := acc1.user_q ++ enqueueUsers league_users seen_user_ids }
      else
        let res := process_league (p.api.league_remote lg.league_id) lg.league_id p.season
        let acc2 : InnerAcc := { acc1 with fetches := acc1.fetches + res.apiCalls }
        let acc3 : InnerAcc :=
          if res.success then
            let league_users := p.api.get_league_users lg.league_id
            { acc2 with
              leagues_processed := acc2.leagues_processed + 1,
              leagues_from_this_user := acc2.leagues_from_this_user + 1,
              fetches := acc2.fetches + 1,
              user_q := acc2.user_q ++ enqueueUsers league_users seen_user_ids }
          else acc2
        if p.target_leagues ≤ acc3.leagues_processed ∨
            p.max_leagues_per_user ≤ acc3.leagues_from_this_user then acc3
        else innerLoop p seen_user_ids rest acc3

/-- The frontier after the optional random rotation: `deque.rotate(r)` moves
the last `r` elements to the front; `r` is drawn from `[0, len-1]`. -/
def rotatedQueue (p : CrawlParams) (s : WalkerState) : List String :=
  if p.shuffle_queue ∧ 1 < s.user_q.length then
    let r := p.rng s.iter % s.user_q.length
    s.user_q.drop (s.user_q.length - r) ++ s.user_q.take (s.user_q.length - r)
  else s.user_q

/-- One iteration of the walker's `while` loop (collector.py lines 93-146):
rotate, pop the front node, skip it if already visited, otherwise mark it
visited, fetch its leagues, run the inner league loop, and checkpoint every
10 visited users. -/
def crawlStep (p : CrawlParams) (s : WalkerState) : WalkerState :=
  match rotatedQueue p s with
  | [] => { s with iter := s.iter + 1 }
  | user_id :: rest =>
    if user_id ∈ s.seen_user_ids then
      { s with user_q := rest, iter := s.iter + 1 }
    else
      let seen := insert user_id s.seen_user_ids
      let leagues := p.api.get_user_leagues user_id p.season
      let acc0 : InnerAcc :=
        { seen_leagues := s.seen_leagues, user_q := rest,
          leagues_processed := s.leagues_processed, leagues_from_this_user := 0,
          fetches := s.fetches + 1 }
      let acc := innerLoop p seen leagues acc0
      let s1 : WalkerState :=
        { seen_user_ids := seen, user_q := acc.user_q,
          seen_leagues := acc.seen_leagues, leagues_processed := acc.leagues_processed,
          fetches := acc.fetches, saves := s.saves, iter := s.iter + 1 }
      if seen.card % 10 = 0 then
        { s1 with saves := s1.saves ++ [(seen, acc.user_q)] }
      else s1

/-- The `while` guard (line 92): frontier non-empty, processed count below
the target, visited count below the visit ceiling. -/
def crawlGuard (p : CrawlParams) (s : WalkerState) : Prop :=
  s.user_q ≠ [] ∧ s.leagues_processed < p.target_leagues ∧
    s.seen_user_ids.card < p.max_users_to_visit

instance (p : CrawlParams) (s : WalkerState) : Decidable (crawlGuard p s) := by
  unfold crawlGuard; infer_instance

/-- The walker's `while` loop, fuelled; `none` means the fuel ran out before
the loop exited. -/
def crawlLoop (p : CrawlParams) : Nat → WalkerState → Option WalkerState
  | 0, s => if crawlGuard p s then none else some s
  | fuel + 1, s => if crawlGuard p s then crawlLoop p fuel (crawlStep p s) else some s

/-- The seed-resolution loop (lines 82-86): look up each seed username and
append its user id to the queue when the user exists and carries a truthy
id. -/
def resolveSeeds (api : CrawlApi) (seed_usernames : List String) : List String :=
  seed_usernames.foldl (fun user_q username =>
    match api.get_user username with
    | some user =>
      match user.user_id with
      | some u_id => if u_id ≠ "" then user_q ++ [u_id] else user_q
      | none => user_q
    | none => user_q) []

/-- Result of the walker's initialisation. -/
structure InitResult where
  seen_user_ids : Finset String
  user_q : List String
  seedsResolved : Bool
  lookups : Nat

/-- Initialisation of `crawl_and_store_leagues` (lines 73-88): load the
checkpoint, and resolve the seed usernames only when the loaded queue is
empty.  `lookups` counts the `get_user` calls issued. -/
def initWalker (api : CrawlApi) (seed_usernames : List String)
    (file : Option CrawlState) : InitResult :=
  let state := load_crawl_state file
  let seen : Finset String := state.seen_user_ids.toFinset
  if state.user_queue = [] then
    { seen_user_ids := seen, user_q := resolveSeeds api seed_usernames,
      seedsResolved := true, lookups := seed_usernames.length }
  else
    { seen_user_ids := seen, user_q := state.user_queue,
      seedsResolved := false, lookups := 0 }

/-- `crawl_and_store_leagues` (lines 47-152): initialise from the checkpoint
or the seeds, run the walker loop, then unconditionally save a final
checkpoint.  `none` means the fuel ran out. -/
def crawl_and_store_leagues (p : CrawlParams) (seed_usernames : List String)
    (file : Option CrawlState) (fuel : Nat) : Option WalkerState :=
  let ini := initWalker p.api seed_usernames file
  let s0 : WalkerState :=
    { seen_user_ids := ini.seen_user_ids, user_q := ini.user_q,
      seen_leagues := ∅, leagues_processed := 0, fetches := ini.lookups,
      saves := [], iter := 0 }
  (crawlLoop p fuel s0).map (fun sf =>
    { sf with saves := sf.saves ++ [(sf.seen_user_ids, sf.user_q)] })

/-! ## Concrete inputs used by counterexamples and witnesses -/

/-- A started league with 67 playoff slots out of 100 rosters: the fraction
67/100 exceeds 2/3 but not the source's 0.67 threshold. -/
def leagueC1 : League :=
  { status := some "in_season", settings := some { playoff_teams := some 67 },
    total_rosters := some 100, name := none }

def remoteC1 : Remote :=
  { league_detail := some leagueC1,
    rosters := [{ roster_id := some 1, owner_id := none, players := none }],
    bracket := [] }

/-- A started league with 10 playoff slots out of 12 rosters: rejected by
the fraction filter. -/
def leagueC1w : League :=
  { status := some "complete", settings := some { playoff_teams := some 10 },
    total_rosters := some 12, name := none }

def remoteC1w : Remote :=
  { league_detail := some leagueC1w,
    rosters := [{ roster_id := some 1, owner_id := none, players := none }],
    bracket := [] }

/-- The boundary league: 8 playoff slots out of 12 rosters (exactly 2/3). -/
def leagueC2a : League :=
  { status := some "in_season", settings := some { playoff_teams := some 8 },
    total_rosters := some 12, name := none }

/-- 9 playoff slots out of 12 rosters (3/4). -/
def leagueC2b : League :=
  { status := some "in_season", settings := some { playoff_teams := some 9 },
    total_rosters := some 12, name := none }

def remoteC2a : Remote :=
  { league_detail := some leagueC2a,
    rosters := [{ roster_id := some 1, owner_id := none, players := none }],
    bracket := [] }

def remoteC2b : Remote :=
  { league_detail := some leagueC2b,
    rosters := [{ roster_id := some 1, owner_id := none, players := none }],
    bracket := [] }

/-- A league with two rosters and no bracket data. -/
def remoteC3 : Remote :=
  { league_detail := some leagueC2a,
    rosters := [{ roster_id := some 1, owner_id := none, players := none },
                { roster_id := some 2, owner_id := some "o2", players := some ["p9"] }],
    bracket := [] }

/-- The bracket of the C4 scenario. -/
def bracketC4 : List Matchup := [⟨some 3, some 5⟩, ⟨some 3, some 7⟩]

/-- A league carrying the C4 bracket, with qualifier and non-qualifier
rosters. -/
def remoteC4 : Remote :=
  { league_detail := some leagueC2a,
    rosters := [⟨some 1, none, none⟩, ⟨some 3, none, some ["p1"]⟩,
                ⟨some 5, none, none⟩, ⟨some 7, none, none⟩, ⟨some 9, none, none⟩],
    bracket := bracketC4 }

/-- A started league whose detail carries neither `settings.playoff_teams`
nor `total_rosters`. -/
def leagueC10 : League :=
  { status := some "in_season", settings := some { playoff_teams := none },
    total_rosters := none, name := some "defaults" }

def remoteC10 : Remote :=
  { league_detail := some leagueC10,
    rosters := [{ roster_id := some 1, owner_id := none, players := none }],
    bracket := [] }

/-- A trivial remote oracle for walker witnesses: every lookup is empty. -/
def apiTrivial : CrawlApi :=
  { get_user := fun _ => none, get_user_leagues := fun _ _ => [],
    get_league_users := fun _ => [], league_exists := fun _ => false,
    league_remote := fun _ => { league_detail := none, rosters := [], bracket := [] } }

/-- Walker parameters for witnesses. -/
def paramsW : CrawlParams :=
  { api := apiTrivial, season := 2025, target_leagues := 5,
    max_users_to_visit := 10, max_leagues_per_user := 5,
    shuffle_queue := false, skip_existing := true, rng := fun _ => 0 }

/-- A walker state whose front node is already visited. -/
def stateW : WalkerState :=
  { seen_user_ids := {"u1"}, user_q := ["u1", "u2"], seen_leagues := ∅,
    leagues_processed := 0, fetches := 3, saves := [], iter := 0 }

/-- A walker state with an empty frontier (a stop condition holds). -/
def stateStopped : WalkerState :=
  { seen_user_ids := {"u1"}, user_q := [], seen_leagues := ∅,
    leagues_processed := 0, fetches := 3, saves := [], iter := 4 }

/-- The final state of a fresh run with no seeds: the loop exits at once and
the final checkpoint is saved. -/
def stateFinal : WalkerState :=
  { seen_user_ids := ∅, user_q := [], seen_leagues := ∅,
    leagues_processed := 0, fetches := 0, saves := [(∅, [])], iter := 0 }

/-! ## Helper lemmas -/

theorem process_league_some (remote : Remote) (league_id : String) (season : Int)
    (league : League) (hdet : remote.league_detail = some league) :
    process_league remote league_id season =
      processLeagueBody remote league league_id season := by
  unfold process_league
  rw [hdet]

/-- Under the hypotheses of a present detail and a passing status gate, the
processor returns failure with no rows written exactly when the fraction
filter fires. -/
theorem process_league_filter_iff (remote : Remote) (league_id : String)
    (season : Int) (league : League)
    (hdet : remote.league_detail = some league)
    (hstat : ¬(league.status = some "pre_draft" ∨ league.status = some "drafting")) :
    ((process_league remote league_id season).success = false ∧
      (process_league remote league_id season).leagues = [] ∧
      (process_league remote league_id season).rosters = [] ∧
      (process_league remote league_id season).roster_players = []) ↔
      (0 < league.total_rosters.getD 12 ∧
        100 * (league.settings.bind LeagueSettings.playoff_teams).getD 6 >
          67 * league.total_rosters.getD 12) := by
  rw [process_league_some remote league_id season league hdet]
  unfold processLeagueBody
  rw [if_neg hstat]
  by_cases hf : 0 < league.total_rosters.getD 12 ∧
      100 * (league.settings.bind LeagueSettings.playoff_teams).getD 6 >
        67 * league.total_rosters.getD 12
  · rw [if_pos hf]
    simpa using hf
  · rw [if_neg hf]
    by_cases hr : remote.rosters = []
    · rw [if_pos hr]
      simpa using hf
    · rw [if_neg hr]
      simpa using hf

/-- Whatever branch the processor takes, every roster row it writes carries
the membership-or-unknown classification against the bracket's qualifier
set. -/
theorem storeRosters_made (league_id : String) (pids : Finset Int)
    (rosters : List Roster) :
    ∀ rec ∈ (storeRosters league_id pids rosters).1,
      rec.made_playoffs =
        if pids = ∅ then none else some (decide (rec.roster_id ∈ pids)) := by
  induction rosters with
  | nil =>
    intro rec hrec
    simp [storeRosters] at hrec
  | cons roster rest ih =>
    intro rec hrec
    rw [storeRosters] at hrec
    cases hrid : roster.roster_id with
    | none =>
      rw [hrid] at hrec
      exact ih rec hrec
    | some rid =>
      rw [hrid] at hrec
      simp only [List.mem_cons] at hrec
      rcases hrec with hrec | hrec
      · subst hrec
        rfl
      · exact ih rec hrec

theorem process_league_made_playoffs (remote : Remote) (league_id : String)
    (season : Int) :
    ∀ rec ∈ (process_league remote league_id season).rosters,
      rec.made_playoffs =
        if extract_playoff_roster_ids remote.bracket = ∅ then none
        else some (decide (rec.roster_id ∈ extract_playoff_roster_ids remote.bracket)) := by
  intro rec hrec
  cases hdet : remote.league_detail with
  | none =>
    unfold process_league at hrec
    rw [hdet] at hrec
    simp at hrec
  | some league =>
    rw [process_league_some remote league_id season league hdet] at hrec
    unfold processLeagueBody at hrec
    by_cases hstat : league.status = some "pre_draft" ∨ league.status = some "drafting"
    · rw [if_pos hstat] at hrec
      simp at hrec
    · rw [if_neg hstat] at hrec
      by_cases hf : 0 < league.total_rosters.getD 12 ∧
          100 * (league.settings.bind LeagueSettings.playoff_teams).getD 6 >
            67 * league.total_rosters.getD 12
      · rw [if_pos hf] at hrec
        simp at hrec
      · rw [if_neg hf] at hrec
        by_cases hr : remote.rosters = []
        · rw [if_pos hr] at hrec
          simp at hrec
        · rw [if_neg hr] at hrec
          exact storeRosters_made league_id _ remote.rosters rec hrec

theorem crawlStep_visited (p : CrawlParams) (s : WalkerState) (user_id : String)
    (rest : List String) (hq : rotatedQueue p s = user_id :: rest)
    (hv : user_id ∈ s.seen_user_ids) :
    crawlStep p s = { s with user_q := rest, iter := s.iter + 1 } := by
  unfold crawlStep
  rw [hq]
  exact if_pos hv

theorem crawlStep_not_visited_seen (p : CrawlParams) (s : WalkerState)
    (user_id : String) (rest : List String) (hq : rotatedQueue p s = user_id :: rest)
    (hv : user_id ∉ s.seen_user_ids) :
    (crawlStep p s).seen_user_ids = insert user_id s.seen_user_ids := by
  unfold crawlStep
  rw [hq]
  dsimp only
  rw [if_neg hv]
  split <;> rfl

/-- The visited set never shrinks across one loop iteration. -/
theorem crawlStep_seen_mono (p : CrawlParams) (s : WalkerState) :
    s.seen_user_ids ⊆ (crawlStep p s).seen_user_ids := by
  cases hq : rotatedQueue p s with
  | nil =>
    unfold crawlStep
    rw [hq]
  | cons user_id rest =>
    by_cases hv : user_id ∈ s.seen_user_ids
    · rw [crawlStep_visited p s user_id rest hq hv]
    · rw [crawlStep_not_visited_seen p s user_id rest hq hv]
      exact Finset.subset_insert user_id s.seen_user_ids

/-- Once a stop condition holds, the loop performs no further iteration. -/
theorem crawlLoop_of_not_guard (p : CrawlParams) (fuel : Nat) (s : WalkerState)
    (h : ¬crawlGuard p s) : crawlLoop p fuel s = some s := by
  cases fuel with
  | zero => rw [crawlLoop, if_neg h]
  | succ n => rw [crawlLoop, if_neg h]

/-- When the loop exits normally, its final state violates the guard. -/
theorem crawlLoop_guard_exit (p : CrawlParams) :
    ∀ (fuel : Nat) (s sf : WalkerState), crawlLoop p fuel s = some sf →
      ¬crawlGuard p sf := by
  intro fuel
  induction fuel with
  | zero =>
    intro s sf h
    by_cases hg : crawlGuard p s
    · rw [crawlLoop, if_pos hg] at h
      cases h
    · rw [crawlLoop, if_neg hg] at h
      injection h with h2
      subst h2
      exact hg
  | succ n ih =>
    intro s sf h
    by_cases hg : crawlGuard p s
    · rw [crawlLoop, if_pos hg] at h
      exact ih _ _ h
    · rw [crawlLoop, if_neg hg] at h
      injection h with h2
      subst h2
      exact hg

/-- The visited set never shrinks across a whole run of the loop. -/
theorem crawlLoop_seen_mono (p : CrawlParams) :
    ∀ (fuel : Nat) (s sf : WalkerState), crawlLoop p fuel s = some sf →
      s.seen_user_ids ⊆ sf.seen_user_ids := by
  intro fuel
  induction fuel with
  | zero =>
    intro s sf h
    by_cases hg : crawlGuard p s
    · rw [crawlLoop, if_pos hg] at h
      cases h
    · rw [crawlLoop, if_neg hg] at h
      injection h with h2
      subst h2
      exact Finset.Subset.refl _
  | succ n ih =>
    intro s sf h
    by_cases hg : crawlGuard p s
    · rw [crawlLoop, if_pos hg] at h
      exact (crawlStep_seen_mono p s).trans (ih _ _ h)
    · rw [crawlLoop, if_neg hg] at h
      injection h with h2
      subst h2
      exact Finset.Subset.refl _

/-- On normal completion the final state violates the guard and the last
checkpoint saved is exactly the final {visited, frontier}. -/
theorem crawl_final_saved (p : CrawlParams) (seed_usernames : List String)
    (file : Option CrawlState) (fuel : Nat) (sf : WalkerState)
    (h : crawl_and_store_leagues p seed_usernames file fuel = some sf) :
    ¬crawlGuard p sf ∧ sf.saves.getLast? = some (sf.seen_user_ids, sf.user_q) := by
  unfold crawl_and_store_leagues at h
  rw [Option.map_eq_some'] at h
  obtain ⟨a, ha, rfl⟩ := h
  have hg := crawlLoop_guard_exit p fuel _ a ha
  refine ⟨?_, ?_⟩
  · simpa [crawlGuard] using hg
  · simp

/-! ## Claim theorems -/

/-- C1 (counterexample): a started league with 67 playoff slots out of 100
rosters has playoff fraction 67/100, which exceeds 2/3 (3·67 > 2·100), yet
`process_league` succeeds and persists the league row — so the fraction
filter does not fire "exactly when the fraction exceeds 2/3". -/
theorem c1_two_thirds_counterexample :
    remoteC1.league_detail = some leagueC1 ∧
    ¬(leagueC1.status = some "pre_draft" ∨ leagueC1.status = some "drafting") ∧
    0 < leagueC1.total_rosters.getD 12 ∧
    3 * (leagueC1.settings.bind LeagueSettings.playoff_teams).getD 6 >
      2 * leagueC1.total_rosters.getD 12 ∧
    (process_league remoteC1 "900001" 2024).success = true ∧
    (process_league remoteC1 "900001" 2024).leagues ≠ [] := by
  decide

/-- C1 (amended): for every league whose detail is present and whose status
passes the started gate, `process_league` fails persisting nothing exactly
when the roster count is positive and the playoff fraction exceeds 0.67
(the source's threshold, not 2/3); for a zero or negative roster count the
filter is skipped. -/
theorem c1_playoff_fraction_threshold (remote : Remote) (league_id : String)
    (season : Int) (league : League)
    (hdet : remote.league_detail = some league)
    (hstat : ¬(league.status = some "pre_draft" ∨ league.status = some "drafting")) :
    ((process_league remote league_id season).success = false ∧
      (process_league remote league_id season).leagues = [] ∧
      (process_league remote league_id season).rosters = [] ∧
      (process_league remote league_id season).roster_players = []) ↔
      (0 < league.total_rosters.getD 12 ∧
        100 * (league.settings.bind LeagueSettings.playoff_teams).getD 6 >
          67 * league.total_rosters.getD 12) :=
  process_league_filter_iff remote league_id season league hdet hstat

/-- C1 (witness): the amended equivalence evaluated at a started 10-of-12
league, whose fraction 10/12 exceeds 0.67. -/
theorem c1_playoff_fraction_threshold_witness :
    ((process_league remoteC1w "900002" 2025).success = false ∧
      (process_league remoteC1w "900002" 2025).leagues = [] ∧
      (process_league remoteC1w "900002" 2025).rosters = [] ∧
      (process_league remoteC1w "900002" 2025).roster_players = []) ↔
      (0 < leagueC1w.total_rosters.getD 12 ∧
        100 * (leagueC1w.settings.bind LeagueSettings.playoff_teams).getD 6 >
          67 * leagueC1w.total_rosters.getD 12) :=
  c1_playoff_fraction_threshold remoteC1w "900002" 2025 leagueC1w rfl (by decide)

/-- C2: with all other gates passing, a 12-roster league with 8 playoff
slots (fraction exactly 2/3) is accepted, and one with 9 playoff slots
(fraction 3/4) is rejected with nothing persisted. -/
theorem c2_playoff_fraction_boundary :
    (process_league remoteC2a "800001" 2025).success = true ∧
    (process_league remoteC2a "800001" 2025).leagues ≠ [] ∧
    (process_league remoteC2b "800002" 2025).success = false ∧
    (process_league remoteC2b "800002" 2025).leagues = [] ∧
    (process_league remoteC2b "800002" 2025).rosters = [] ∧
    (process_league remoteC2b "800002" 2025).roster_players = [] := by
  decide

/-- C3: with an empty playoff bracket, `extract_playoff_roster_ids` returns
the empty set and every roster row the processor writes carries
`made_playoffs = none` (unknown), never `some false`. -/
theorem c3_empty_bracket_unknown (remote : Remote) (league_id : String)
    (season : Int) (hb : remote.bracket = []) :
    extract_playoff_roster_ids remote.bracket = ∅ ∧
    ∀ rec ∈ (process_league remote league_id season).rosters,
      rec.made_playoffs = none := by
  constructor
  · rw [hb]
    rfl
  · intro rec hrec
    have h := process_league_made_playoffs remote league_id season rec hrec
    rw [hb] at h
    simpa using h

/-- C3 (witness): the empty-bracket property evaluated at a concrete
two-roster league with no bracket data. -/
theorem c3_empty_bracket_unknown_witness :
    extract_playoff_roster_ids remoteC3.bracket = ∅ ∧
    ∀ rec ∈ (process_league remoteC3 "700001" 2025).rosters,
      rec.made_playoffs = none :=
  c3_empty_bracket_unknown remoteC3 "700001" 2025 rfl

/-- C4: the bracket `[{t1 := 3, t2 := 5}, {t1 := 3, t2 := 7}]` yields the
qualifier set `{3, 5, 7}`, and in any league carrying that bracket every
roster row written by `process_league` is marked `true` exactly for roster
ids 3, 5 and 7 and `false` for every other roster id. -/
theorem c4_bracket_scenario :
    extract_playoff_roster_ids bracketC4 = {3, 5, 7} ∧
    ∀ (remote : Remote) (league_id : String) (season : Int),
      remote.bracket = bracketC4 →
      ∀ rec ∈ (process_league remote league_id season).rosters,
        rec.made_playoffs =
          some (decide (rec.roster_id = 3 ∨ rec.roster_id = 5 ∨ rec.roster_id = 7)) := by
  have hset : extract_playoff_roster_ids bracketC4 = {3, 5, 7} := by decide
  refine ⟨hset, ?_⟩
  intro remote league_id season hb rec hrec
  have h := process_league_made_playoffs remote league_id season rec hrec
  rw [hb, hset] at h
  rw [if_neg (by decide : ¬({3, 5, 7} : Finset Int) = ∅)] at h
  rw [h]
  congr 1
  rw [decide_eq_decide]
  simp [Finset.mem_insert, Finset.mem_singleton]

/-- C4 (witness): the scenario evaluated at a concrete league with rosters
1, 3, 5, 7 and 9 and the C4 bracket. -/
theorem c4_bracket_scenario_witness :
    extract_playoff_roster_ids bracketC4 = {3, 5, 7} ∧
    ∀ rec ∈ (process_league remoteC4 "600001" 2025).rosters,
      rec.made_playoffs =
        some (decide (rec.roster_id = 3 ∨ rec.roster_id = 5 ∨ rec.roster_id = 7)) :=
  ⟨c4_bracket_scenario.1, c4_bracket_scenario.2 remoteC4 "600001" 2025 rfl⟩

/-- C5: the client's failure mapping — a 429 response becomes the fatal
`RuntimeError` from every lookup; a 404 on the single-entity lookups
(`get_user`, `get_league`) becomes the absent value; any other HTTP error
status on the list-returning lookups (`get_user_leagues`,
`get_league_users`, `get_league_rosters`, `get_winners_bracket`) degrades
to the empty list. -/
theorem c5_error_taxonomy :
    (∀ (α : Type) (u : String) (r : HttpResponse α), r.status = 429 →
      SleeperAPI.get_user u r =
        .fatal ("Rate limited (429) on " ++ ("/user/" ++ u) ++ ". Slow down.")) ∧
    (∀ (α : Type) (u : String) (season : Int) (r : HttpResponse (List α)),
      r.status = 429 →
      SleeperAPI.get_user_leagues u season r =
        .fatal ("Rate limited (429) on " ++
          ("/user/" ++ u ++ "/leagues/nfl/" ++ toString season) ++ ". Slow down.")) ∧
    (∀ (α : Type) (lid : String) (r : HttpResponse α), r.status = 429 →
      SleeperAPI.get_league lid r =
        .fatal ("Rate limited (429) on " ++ ("/league/" ++ lid) ++ ". Slow down.")) ∧
    (∀ (α : Type) (lid : String) (r : HttpResponse (List α)), r.status = 429 →
      SleeperAPI.get_league_users lid r =
        .fatal ("Rate limited (429) on " ++ ("/league/" ++ lid ++ "/users") ++ ". Slow down.")) ∧
    (∀ (α : Type) (lid : String) (r : HttpResponse (List α)), r.status = 429 →
      SleeperAPI.get_league_rosters lid r =
        .fatal ("Rate limited (429) on " ++ ("/league/" ++ lid ++ "/rosters") ++ ". Slow down.")) ∧
    (∀ (α : Type) (lid : String) (r : HttpResponse (List α)), r.status = 429 →
      SleeperAPI.get_winners_bracket lid r =
        .fatal ("Rate limited (429) on " ++ ("/league/" ++ lid ++ "/winners_bracket") ++ ". Slow down.")) ∧
    (∀ (α : Type) (u : String) (r : HttpResponse α), r.status = 404 →
      SleeperAPI.get_user u r = .ok none) ∧
    (∀ (α : Type) (lid : String) (r : HttpResponse α), r.status = 404 →
      SleeperAPI.get_league lid r = .ok none) ∧
    (∀ (α : Type) (u : String) (season : Int) (r : HttpResponse (List α)),
      400 ≤ r.status → r.status ≤ 599 → r.status ≠ 429 →
      SleeperAPI.get_user_leagues u season r = .ok []) ∧
    (∀ (α : Type) (lid : String) (r : HttpResponse (List α)),
      400 ≤ r.status → r.status ≤ 599 → r.status ≠ 429 →
      SleeperAPI.get_league_users lid r = .ok []) ∧
    (∀ (α : Type) (lid : String) (r : HttpResponse (List α)),
      400 ≤ r.status → r.status ≤ 599 → r.status ≠ 429 →
      SleeperAPI.get_league_rosters lid r = .ok []) ∧
    (∀ (α : Type) (lid : String) (r : HttpResponse (List α)),
      400 ≤ r.status → r.status ≤ 599 → r.status ≠ 429 →
      SleeperAPI.get_winners_bracket lid r = .ok []) := by
  refine ⟨?_, ?_, ?_, ?_, ?_, ?_, ?_, ?_, ?_, ?_, ?_, ?_⟩
  · intro α u r h
    simp [SleeperAPI.get_user, SleeperAPI.get, h]
  · intro α u season r h
    simp [SleeperAPI.get_user_leagues, SleeperAPI.get, h]
  · intro α lid r h
    simp [SleeperAPI.get_league, SleeperAPI.get, h]
  · intro α lid r h
    simp [SleeperAPI.get_league_users, SleeperAPI.get, h]
  · intro α lid r h
    simp [SleeperAPI.get_league_rosters, SleeperAPI.get, h]
  · intro α lid r h
    simp [SleeperAPI.get_winners_bracket, SleeperAPI.get, h]
  · intro α u r h
    simp [SleeperAPI.get_user, SleeperAPI.get, h]
  · intro α lid r h
    simp [SleeperAPI.get_league, SleeperAPI.get, h]
  · intro α u season r h1 h2 h3
    simp [SleeperAPI.get_user_leagues, SleeperAPI.get, h1, h2, h3]
  · intro α lid r h1 h2 h3
    simp [SleeperAPI.get_league_users, SleeperAPI.get, h1, h2, h3]
  · intro α lid r h1 h2 h3
    simp [SleeperAPI.get_league_rosters, SleeperAPI.get, h1, h2, h3]
  · intro α lid r h1 h2 h3
    simp [SleeperAPI.get_winners_bracket, SleeperAPI.get, h1, h2, h3]

/-- C5 (witness): each branch of the taxonomy evaluated at a concrete
status and body. -/
theorem c5_error_taxonomy_witness :
    SleeperAPI.get_user "ann" ({ status := 429, body := 0 } : HttpResponse Nat) =
      .fatal ("Rate limited (429) on " ++ ("/user/" ++ "ann") ++ ". Slow down.") ∧
    SleeperAPI.get_user_leagues "u77" 2025 ({ status := 429, body := [] } : HttpResponse (List Nat)) =
      .fatal ("Rate limited (429) on " ++
        ("/user/" ++ "u77" ++ "/leagues/nfl/" ++ toString (2025 : Int)) ++ ". Slow down.") ∧
    SleeperAPI.get_league "L9" ({ status := 429, body := 0 } : HttpResponse Nat) =
      .fatal ("Rate limited (429) on " ++ ("/league/" ++ "L9") ++ ". Slow down.") ∧
    SleeperAPI.get_league_users "L9" ({ status := 429, body := [] } : HttpResponse (List Nat)) =
      .fatal ("Rate limited (429) on " ++ ("/league/" ++ "L9" ++ "/users") ++ ". Slow down.") ∧
    SleeperAPI.get_league_rosters "L9" ({ status := 429, body := [] } : HttpResponse (List Nat)) =
      .fatal ("Rate limited (429) on " ++ ("/league/" ++ "L9" ++ "/rosters") ++ ". Slow down.") ∧
    SleeperAPI.get_winners_bracket "L9" ({ status := 429, body := [] } : HttpResponse (List Nat)) =
      .fatal ("Rate limited (429) on " ++ ("/league/" ++ "L9" ++ "/winners_bracket") ++ ". Slow down.") ∧
    SleeperAPI.get_user "bob" ({ status := 404, body := 0 } : HttpResponse Nat) = .ok none ∧
    SleeperAPI.get_league "L4" ({ status := 404, body := 0 } : HttpResponse Nat) = .ok none ∧
    SleeperAPI.get_user_leagues "u77" 2025 ({ status := 500, body := [3] } : HttpResponse (List Nat)) = .ok [] ∧
    SleeperAPI.get_league_users "L9" ({ status := 500, body := [3] } : HttpResponse (List Nat)) = .ok [] ∧
    SleeperAPI.get_league_rosters "L9" ({ status := 500, body := [3] } : HttpResponse (List Nat)) = .ok [] ∧
    SleeperAPI.get_winners_bracket "L9" ({ status := 500, body := [3] } : HttpResponse (List Nat)) = .ok [] := by
  have t := c5_error_taxonomy
  exact ⟨t.1 Nat "ann" _ rfl,
    t.2.1 Nat "u77" 2025 _ rfl,
    t.2.2.1 Nat "L9" _ rfl,
    t.2.2.2.1 Nat "L9" _ rfl,
    t.2.2.2.2.1 Nat "L9" _ rfl,
    t.2.2.2.2.2.1 Nat "L9" _ rfl,
    t.2.2.2.2.2.2.1 Nat "bob" _ rfl,
    t.2.2.2.2.2.2.2.1 Nat "L4" _ rfl,
    t.2.2.2.2.2.2.2.2.1 Nat "u77" 2025 _ (by decide) (by decide) (by decide),
    t.2.2.2.2.2.2.2.2.2.1 Nat "L9" _ (by decide) (by decide) (by decide),
    t.2.2.2.2.2.2.2.2.2.2.1 Nat "L9" _ (by decide) (by decide) (by decide),
    t.2.2.2.2.2.2.2.2.2.2.2 Nat "L9" _ (by decide) (by decide) (by decide)⟩

/-- C6: loading the checkpoint written by `save_crawl_state` restores the
same visited set (as a set) and the same frontier sequence in order. -/
theorem c6_checkpoint_roundtrip (visited : Finset String) (frontier : List String) :
    (load_crawl_state (some (save_crawl_state visited frontier))).seen_user_ids.toFinset =
      visited ∧
    (load_crawl_state (some (save_crawl_state visited frontier))).user_queue = frontier := by
  constructor
  · simp [load_crawl_state, save_crawl_state, Finset.sort_toFinset]
  · rfl

/-- C7: the walker's initialisation resolves the seed usernames exactly when
the loaded checkpoint frontier is empty; with a non-empty loaded frontier no
seed lookup is issued and the saved frontier and visited set are continued
unchanged. -/
theorem c7_seed_resolution (api : CrawlApi) (seed_usernames : List String)
    (file : Option CrawlState) :
    ((initWalker api seed_usernames file).seedsResolved = true ↔
      (load_crawl_state file).user_queue = []) ∧
    (initWalker api seed_usernames file).seen_user_ids =
      (load_crawl_state file).seen_user_ids.toFinset ∧
    (initWalker api seed_usernames file).user_q =
      (if (load_crawl_state file).user_queue = []
       then resolveSeeds api seed_usernames
       else (load_crawl_state file).user_queue) ∧
    (initWalker api seed_usernames file).lookups =
      (if (load_crawl_state file).user_queue = [] then seed_usernames.length else 0) := by
  unfold initWalker
  by_cases hq : (load_crawl_state file).user_queue = []
  · simp [hq]
  · simp [hq]

/-- C7 (witness): initialisation evaluated on a saved checkpoint with a
non-empty frontier: the seeds are not resolved and the saved state is
continued. -/
theorem c7_seed_resolution_witness :
    ((initWalker apiTrivial ["seedA"]
        (some { seen_user_ids := ["u1"], user_queue := ["u2", "u3"] })).seedsResolved = true ↔
      (load_crawl_state (some { seen_user_ids := ["u1"], user_queue := ["u2", "u3"] })).user_queue = []) ∧
    (initWalker apiTrivial ["seedA"]
        (some { seen_user_ids := ["u1"], user_queue := ["u2", "u3"] })).seen_user_ids =
      (load_crawl_state (some { seen_user_ids := ["u1"], user_queue := ["u2", "u3"] })).seen_user_ids.toFinset ∧
    (initWalker apiTrivial ["seedA"]
        (some { seen_user_ids := ["u1"], user_queue := ["u2", "u3"] })).user_q =
      (if (load_crawl_state (some { seen_user_ids := ["u1"], user_queue := ["u2", "u3"] })).user_queue = []
       then resolveSeeds apiTrivial ["seedA"]
       else (load_crawl_state (some { seen_user_ids := ["u1"], user_queue := ["u2", "u3"] })).user_queue) ∧
    (initWalker apiTrivial ["seedA"]
        (some { seen_user_ids := ["u1"], user_queue := ["u2", "u3"] })).lookups =
      (if (load_crawl_state (some { seen_user_ids := ["u1"], user_queue := ["u2", "u3"] })).user_queue = []
       then (["seedA"] : List String).length else 0) :=
  c7_seed_resolution apiTrivial ["seedA"]
    (some { seen_user_ids := ["u1"], user_queue := ["u2", "u3"] })

/-- C8: an iteration dequeuing an already-visited node is a no-op — the
visited set (and so its cardinality) is unchanged, no remote fetch is
issued, nothing is enqueued (the frontier becomes exactly the tail of the
rotated queue) and the processed counter is unchanged; moreover the visited
set only ever gains elements over any completed run of the loop. -/
theorem c8_visited_dequeue_noop (p : CrawlParams) :
    (∀ (s : WalkerState) (user_id : String) (rest : List String),
      rotatedQueue p s = user_id :: rest → user_id ∈ s.seen_user_ids →
      (crawlStep p s).seen_user_ids = s.seen_user_ids ∧
      (crawlStep p s).seen_user_ids.card = s.seen_user_ids.card ∧
      (crawlStep p s).fetches = s.fetches ∧
      (crawlStep p s).user_q = rest ∧
      (crawlStep p s).leagues_processed = s.leagues_processed) ∧
    (∀ (fuel : Nat) (s sf : WalkerState), crawlLoop p fuel s = some sf →
      s.seen_user_ids ⊆ sf.seen_user_ids) := by
  constructor
  · intro s user_id rest hq hv
    rw [crawlStep_visited p s user_id rest hq hv]
    exact ⟨rfl, rfl, rfl, rfl, rfl⟩
  · exact crawlLoop_seen_mono p

/-- C8 (witness): the no-op iteration evaluated where the front node `u1`
is already visited, and monotonicity evaluated on a stopped loop. -/
theorem c8_visited_dequeue_noop_witness :
    ((crawlStep paramsW stateW).seen_user_ids = stateW.seen_user_ids ∧
     (crawlStep paramsW stateW).seen_user_ids.card = stateW.seen_user_ids.card ∧
     (crawlStep paramsW stateW).fetches = stateW.fetches ∧
     (crawlStep paramsW stateW).user_q = ["u2"] ∧
     (crawlStep paramsW stateW).leagues_processed = stateW.leagues_processed) ∧
    stateStopped.seen_user_ids ⊆ stateStopped.seen_user_ids :=
  ⟨(c8_visited_dequeue_noop paramsW).1 stateW "u1" ["u2"] (by decide) (by decide),
   (c8_visited_dequeue_noop paramsW).2 0 stateStopped stateStopped (by decide)⟩

/-- C9: the walker loop never begins an iteration once a stop condition
holds (it returns its state untouched); whenever it completes, the final
state violates the guard (so a stop condition holds); and the completed
`crawl_and_store_leagues` run ends with a final unconditional checkpoint of
exactly the final {visited, frontier}. -/
theorem c9_loop_exit_and_final_save (p : CrawlParams) :
    (∀ (fuel : Nat) (s : WalkerState), ¬crawlGuard p s → crawlLoop p fuel s = some s) ∧
    (∀ (fuel : Nat) (s sf : WalkerState), crawlLoop p fuel s = some sf →
      ¬crawlGuard p sf) ∧
    (∀ (seed_usernames : List String) (file : Option CrawlState) (fuel : Nat)
        (sf : WalkerState),
      crawl_and_store_leagues p seed_usernames file fuel = some sf →
      ¬crawlGuard p sf ∧ sf.saves.getLast? = some (sf.seen_user_ids, sf.user_q)) :=
  ⟨fun fuel s h => crawlLoop_of_not_guard p fuel s h,
   crawlLoop_guard_exit p,
   fun seed_usernames file fuel sf h => crawl_final_saved p seed_usernames file fuel sf h⟩

/-- C9 (witness): the loop returns a stopped state untouched, that state
violates the guard, and a completed run's last save is its final
{visited, frontier}. -/
theorem c9_loop_exit_and_final_save_witness :
    crawlLoop paramsW 3 stateStopped = some stateStopped ∧
    ¬crawlGuard paramsW stateStopped ∧
    (¬crawlGuard paramsW stateFinal ∧
      stateFinal.saves.getLast? = some (stateFinal.seen_user_ids, stateFinal.user_q)) :=
  ⟨(c9_loop_exit_and_final_save paramsW).1 3 stateStopped (by decide),
   (c9_loop_exit_and_final_save paramsW).2.1 3 stateStopped stateStopped
     ((c9_loop_exit_and_final_save paramsW).1 3 stateStopped (by decide)),
   (c9_loop_exit_and_final_save paramsW).2.2 [] none 0 stateFinal (by decide)⟩

/-- C10: every league row the processor persists stores the detail's raw
`total_rosters` (absent stays absent) and the defaulted `playoff_teams`;
with both fields absent the filter is evaluated at the defaults 6 and 12
(and passes), so the row `{total_rosters := none, playoff_teams := 6}` is
persisted; with only one field present the filter decision is exactly the
threshold test at the default for the other. -/
theorem c10_raw_and_default_fields (remote : Remote) (league_id : String)
    (season : Int) (league : League)
    (hdet : remote.league_detail = some league)
    (hstat : ¬(league.status = some "pre_draft" ∨ league.status = some "drafting")) :
    (∀ rec ∈ (process_league remote league_id season).leagues,
      rec.total_rosters = league.total_rosters ∧
      rec.playoff_teams = (league.settings.bind LeagueSettings.playoff_teams).getD 6) ∧
    (league.settings.bind LeagueSettings.playoff_teams = none →
      league.total_rosters = none →
      (process_league remote league_id season).leagues =
        [{ league_id := league_id, season := toString season, name := league.name,
           total_rosters := none, playoff_teams := 6, status := league.status }]) ∧
    (∀ t : Int, league.settings.bind LeagueSettings.playoff_teams = none →
      league.total_rosters = some t →
      (((process_league remote league_id season).success = false ∧
        (process_league remote league_id season).leagues = [] ∧
        (process_league remote league_id season).rosters = [] ∧
        (process_league remote league_id season).roster_players = []) ↔
        (0 < t ∧ 100 * 6 > 67 * t))) ∧
    (∀ pt : Int, league.settings.bind LeagueSettings.playoff_teams = some pt →
      league.total_rosters = none →
      (((process_league remote league_id season).success = false ∧
        (process_league remote league_id season).leagues = [] ∧
        (process_league remote league_id season).rosters = [] ∧
        (process_league remote league_id season).roster_players = []) ↔
        (0 < (12 : Int) ∧ 100 * pt > 67 * 12))) := by
  refine ⟨?_, ?_, ?_, ?_⟩
  · intro rec hrec
    rw [process_league_some remote league_id season league hdet] at hrec
    unfold processLeagueBody at hrec
    rw [if_neg hstat] at hrec
    by_cases hf : 0 < league.total_rosters.getD 12 ∧
        100 * (league.settings.bind LeagueSettings.playoff_teams).getD 6 >
          67 * league.total_rosters.getD 12
    · rw [if_pos hf] at hrec
      simp at hrec
    · rw [if_neg hf] at hrec
      by_cases hr : remote.rosters = []
      · rw [if_pos hr] at hrec
        simp at hrec
        subst hrec
        exact ⟨rfl, rfl⟩
      · rw [if_neg hr] at hrec
        simp at hrec
        subst hrec
        exact ⟨rfl, rfl⟩
  · intro hpt htot
    rw [process_league_some remote league_id season league hdet]
    unfold processLeagueBody
    rw [if_neg hstat, hpt, htot]
    rw [if_neg (by norm_num : ¬(0 < (Option.getD none 12 : Int) ∧
      100 * (Option.getD none 6 : Int) > 67 * Option.getD none 12))]
    by_cases hr : remote.rosters = []
    · rw [if_pos hr]
      rfl
    · rw [if_neg hr]
      rfl
  · intro t hpt htot
    have h := process_league_filter_iff remote league_id season league hdet hstat
    rw [hpt, htot] at h
    simpa using h
  · intro pt hpt htot
    have h := process_league_filter_iff remote league_id season league hdet hstat
    rw [hpt, htot] at h
    simpa using h

/-- C10 (witness): the defaults evaluated at a started league whose detail
has neither `settings.playoff_teams` nor `total_rosters`. -/
theorem c10_raw_and_default_fields_witness :
    (∀ rec ∈ (process_league remoteC10 "500001" 2025).leagues,
      rec.total_rosters = leagueC10.total_rosters ∧
      rec.playoff_teams = (leagueC10.settings.bind LeagueSettings.playoff_teams).getD 6) ∧
    (process_league remoteC10 "500001" 2025).leagues =
      [{ league_id := "500001", season := toString (2025 : Int), name := leagueC10.name,
         total_rosters := none, playoff_teams := 6, status := leagueC10.status }] :=
  ⟨(c10_raw_and_default_fields remoteC10 "500001" 2025 leagueC10 rfl (by decide)).1,
   (c10_raw_and_default_fields remoteC10 "500001" 2025 leagueC10 rfl (by decide)).2.1
     rfl rfl⟩

end FantasyPlayoffOdds
